import Mathlib

/-!
Verification of the MaidSafe vault-manager local messaging layer.

The development shallowly embeds the parts of the code the claims are
about:

- the framed TCP channel of src/maidsafe/vault_manager/tcp_connection.cc
  (EncodeData, the ReadSize completion handler, Send, DoClose, Start and
  the two constructors);
- the shared-memory register of
  src/maidsafe/lifestuff_manager/shared_memory_communication.h
  (SafeReadOnlySharedMemory::ChangeAddress and
  LifeStuffManagerAddressGetter::GetAddress);
- the shared-memory queue channel of the same header
  (the SharedMemoryCommunication constructor roles and PushMessage).

Machine bytes are modelled as Nat values below 256; fallible operations
return the mutated state together with an optional error code, so that a
reported error visibly leaves the state unchanged.  External capabilities
(the signature check, the executor thread count, the connect outcome) are
explicit parameters.
-/

/-- Error codes raised by the embedded operations, drawn from the
CommonErrors, VaultManagerErrors and AsymmErrors enumerations used in the
sources plus the two boost interprocess failures. -/
inductive ErrorCode where
  | invalid_string_size
  | ipc_message_too_large
  | invalid_parameter
  | failed_to_connect
  | invalid_signature
  | shared_memory_already_exists
  | shared_memory_not_found
  deriving DecidableEq, Repr

/-- Modelled from the spec: TcpConnection::MaxMessageSize is the configured
maximum message size; its definition lives in tcp_connection.h, which is not
among the sources here.  The spec fixes no numeric value, and the claims only
need the bound to be positive and below 2 ^ 32; 1 MiB is a representative
choice. -/
def maxMessageSize : Nat := 1024 * 1024

/-- One frame queued for sending: the four size bytes and the payload
(TcpConnection::SendingMessage).  Bytes are Nat values below 256, following
the wire format of the spec (4-byte big-endian unsigned length, then the raw
payload bytes). -/
structure SendingMessage where
  sizeBuffer : List Nat
  data : List Nat
  deriving DecidableEq, Repr

/-- The size bytes built inside TcpConnection::EncodeData: byte i holds the
low 8 bits of the payload size shifted right by 8 * (3 - i), i.e. the size in
big-endian order. -/
def encodeSizeBytes (n : Nat) : List Nat :=
  [(n >>> (8 * 3)) % 256, (n >>> (8 * 2)) % 256, (n >>> (8 * 1)) % 256, (n >>> (8 * 0)) % 256]

/-- TcpConnection::EncodeData: an empty payload raises invalid_string_size, a
payload above MaxMessageSize raises ipc_message_too_large, and otherwise the
framed message is built from the size bytes and the payload. -/
def encodeData (data : List Nat) : Except ErrorCode SendingMessage :=
  if data.isEmpty then .error .invalid_string_size
  else if data.length > maxMessageSize then .error .ipc_message_too_large
  else .ok { sizeBuffer := encodeSizeBytes data.length, data := data }

/-- The byte reassembly inside the TcpConnection::ReadSize completion handler:
three shift-by-8-and-or steps folding the four received size bytes back into
one number. -/
def decodeSize (b0 b1 b2 b3 : Nat) : Nat :=
  ((((b0 <<< 8) ||| b1) <<< 8) ||| b2) <<< 8 ||| b3

/-- The reassembly applied to a four-byte buffer. -/
def decodeSizeBytes (l : List Nat) : Nat :=
  match l with
  | [b0, b1, b2, b3] => decodeSize b0 b1 b2 b3
  | _ => 0

/-- The state of one TcpConnection that the claims are about: the two
call_once flags (start_flag_ and socket_close_flag_), the socket, whether the
two callbacks were registered, a count of connection-closed callback
invocations, the inbound body buffer and the outbound send queue. -/
structure ConnState where
  startCalled : Bool
  closeFlagUsed : Bool
  socketOpen : Bool
  sendShutdown : Bool
  hasOnMessageReceived : Bool
  hasOnConnectionClosed : Bool
  closedCallbackCount : Nat
  dataBuffer : List Nat
  sendQueue : List SendingMessage
  deriving DecidableEq, Repr

/-- The member state established by the initialiser lists of both
constructors: no callbacks, empty buffers, flags unused. -/
def initConnState : ConnState :=
  { startCalled := false, closeFlagUsed := false, socketOpen := false,
    sendShutdown := false, hasOnMessageReceived := false,
    hasOnConnectionClosed := false, closedCallbackCount := 0,
    dataBuffer := [], sendQueue := [] }

/-- TcpConnection::TcpConnection(AsioService&): construction fails with
invalid_parameter exactly when the service thread count differs from one. -/
def tcpConnectionCtor (threadCount : Nat) : Except ErrorCode ConnState :=
  if threadCount ≠ 1 then .error .invalid_parameter
  else .ok initConnState

/-- TcpConnection::TcpConnection(AsioService&, uint16_t): the same thread
count check runs first; afterwards the loopback connect either opens the
socket or fails with failed_to_connect.  The connect outcome is an explicit
parameter standing for the OS result. -/
def tcpConnectionDialCtor (threadCount : Nat) (connectSucceeds : Bool) :
    Except ErrorCode ConnState :=
  if threadCount ≠ 1 then .error .invalid_parameter
  else if connectSucceeds then .ok { initConnState with socketOpen := true }
  else .error .failed_to_connect

/-- TcpConnection::Start: a call_once on start_flag_ registering both
callbacks (and scheduling the first ReadSize, which the claims do not
need). -/
def start (s : ConnState) : ConnState :=
  if s.startCalled then s
  else { s with startCalled := true, hasOnMessageReceived := true,
                hasOnConnectionClosed := true }

/-- TcpConnection::DoClose: a call_once on socket_close_flag_ whose body shuts
down the send half, closes the socket, and invokes the connection-closed
callback only when one is registered.  Every close path of the class (an
explicit Close, a read failure, a write failure, the oversized-length check)
funnels into this function. -/
def doClose (s : ConnState) : ConnState :=
  if s.closeFlagUsed then s
  else { s with closeFlagUsed := true, sendShutdown := true, socketOpen := false,
                closedCallbackCount :=
                  s.closedCallbackCount + (if s.hasOnConnectionClosed then 1 else 0) }

/-- What the ReadSize completion handler does next: close the connection, or
go on to read a body of the given size. -/
inductive ReadAction where
  | close
  | readBody (n : Nat)
  deriving DecidableEq, Repr

/-- The semantics of std::vector::resize on the body buffer: keep the first n
elements and zero-fill up to length n. -/
def listResize (l : List Nat) (n : Nat) : List Nat :=
  l.take n ++ List.replicate (n - l.length) 0

/-- The completion handler inside TcpConnection::ReadSize, after the four
size bytes arrived: an I/O failure closes; a reassembled size above
MaxMessageSize clears the body buffer and closes; otherwise the body buffer
is resized and the body read starts. -/
def readSizeHandler (s : ConnState) (ecFail : Bool) (b0 b1 b2 b3 : Nat) :
    ConnState × ReadAction :=
  if ecFail then (doClose s, .close)
  else if decodeSize b0 b1 b2 b3 > maxMessageSize then
    (doClose { s with dataBuffer := [] }, .close)
  else
    ({ s with dataBuffer := listResize s.dataBuffer (decodeSize b0 b1 b2 b3) },
     .readBody (decodeSize b0 b1 b2 b3))

/-- TcpConnection::Send: EncodeData runs before the post onto the io_service,
so a raised error leaves the send queue untouched and nothing reaches the
wire; a valid payload is appended to send_queue_ (and a transmit is kicked
off when the queue was empty, which does not change the queue content
modelled here). -/
def send (s : ConnState) (data : List Nat) : ConnState × Option ErrorCode :=
  match encodeData data with
  | .error e => (s, some e)
  | .ok msg => ({ s with sendQueue := s.sendQueue ++ [msg] }, none)

/-- TcpConnection::DoSend writes one frame as a single vectored operation:
the size bytes followed by the payload. -/
def frameBytes (m : SendingMessage) : List Nat :=
  m.sizeBuffer ++ m.data

/-- One receive step of the read path: ReadSize takes exactly four bytes off
the stream and reassembles the length; an oversized length closes the
connection (no body read); otherwise ReadData takes exactly that many bytes
and delivers them, leaving the rest of the stream for the next frame. -/
def readFrame (stream : List Nat) : Option (List Nat × List Nat) :=
  match stream with
  | b0 :: b1 :: b2 :: b3 :: rest =>
      if decodeSize b0 b1 b2 b3 > maxMessageSize then none
      else if rest.length < decodeSize b0 b1 b2 b3 then none
      else some (rest.take (decodeSize b0 b1 b2 b3), rest.drop (decodeSize b0 b1 b2 b3))
  | _ => none

/-- detail::SafeAddress: the address buffer and the signature buffer guarded
by the interprocess mutex (the mutex only serialises access and is not
otherwise modelled; both buffers are byte lists). -/
structure SafeAddress where
  address : List Nat
  signature : List Nat
  deriving DecidableEq, Repr

/-- Modelled from the spec: the fixed size of the address buffer in
detail::SafeAddress (queue_operations.h, not among the sources).  The write
asserts at lines 91 and 113 force it to equal the serialized identity size;
64 bytes, the size of the hash-named identities. -/
def addressSize : Nat := 64

/-- The std::string(const char*) read applied to the unterminated address
buffer at lines 57, 59 and 108 of shared_memory_communication.h: bytes are
consumed up to the first zero byte, continuing past the end of the buffer
into whatever memory follows it (the tailMem parameter) when the buffer
itself contains no zero byte.  The model stops at the end of the supplied
memory; the real read there keeps overrunning. -/
def cStringRead (buffer tailMem : List Nat) : List Nat :=
  (buffer ++ tailMem).takeWhile (fun b => b != 0)

/-- The bounded Identity construction (from the maidsafe common library,
external to this repository) applied to the read at lines 59 and 108: a
string whose length differs from the fixed identity size makes the
constructor throw invalid_string_size. -/
def mkIdentity (s : List Nat) : Except ErrorCode (List Nat) :=
  if s.length = addressSize then .ok s else .error .invalid_string_size

/-- LifeStuffManagerAddressGetter::GetAddress: lock the mutex and rebuild the
identity from the stored buffer through the zero-terminated read and the
bounded Identity construction; a read that truncates at an interior zero
byte or overruns makes the construction throw instead of returning the
stored bytes. -/
def getAddress (st : SafeAddress) (tailMem : List Nat) : Except ErrorCode (List Nat) :=
  mkIdentity (cStringRead st.address tailMem)

/-- SafeReadOnlySharedMemory::ChangeAddress: under the lock the current
address is rebuilt from the stored buffer through the zero-terminated read
and the bounded Identity construction, which can throw; when it equals the
new address the call returns at once; otherwise asymm::CheckSignature runs on
the new address and new signature with the writer public key (the check
parameter stands for that capability): on success both buffers are
overwritten, on failure invalid_signature is raised.  On every failing path
the buffers stay untouched. -/
def changeAddress (check : List Nat → List Nat → Bool) (st : SafeAddress)
    (tailMem newAddress newSignature : List Nat) : SafeAddress × Option ErrorCode :=
  match mkIdentity (cStringRead st.address tailMem) with
  | .error e => (st, some e)
  | .ok currentAddress =>
      if currentAddress = newAddress then (st, none)
      else if check newAddress newSignature then
        ({ address := newAddress, signature := newSignature }, none)
      else (st, some .invalid_signature)

/-- The OS-level state of one shared-memory name: the id of the region
currently bound to the name when one exists, together with a counter
supplying fresh region ids, so that distinct creations yield distinct
regions. -/
structure ShmState where
  region : Option Nat
  nextId : Nat
  deriving DecidableEq, Repr

/-- Modelled from the spec: detail::DecideDeletion of queue_operations.h is
not among the sources; per the spec the creator role deletes any stale
OS-level object of the name first, as defensive cleanup. -/
def decideDeletionCreate (st : ShmState) : ShmState :=
  { st with region := none }

/-- Modelled from the spec: in the opener role DecideDeletion removes
nothing, since the creator retains authority over the name. -/
def decideDeletionOpen (st : ShmState) : ShmState :=
  st

/-- Modelled from the spec: exclusive creation of the named region (the boost
create_only tag) fails when a region of the name exists and otherwise binds a
fresh region to the name. -/
def createOnly (st : ShmState) : Except ErrorCode (ShmState × Nat) :=
  match st.region with
  | some _ => .error .shared_memory_already_exists
  | none => .ok ({ region := some st.nextId, nextId := st.nextId + 1 }, st.nextId)

/-- Modelled from the spec: attaching to the named region (the boost
open_only tag) fails when none exists and otherwise yields the existing
region. -/
def openOnly (st : ShmState) : Except ErrorCode (ShmState × Nat) :=
  match st.region with
  | some id => .ok (st, id)
  | none => .error .shared_memory_not_found

/-- The SharedMemoryCommunication constructor in the creator role
(CreationTag = SharedMemoryCreateOnly): DecideDeletion runs first, then the
exclusive creation. -/
def creatorConstruct (st : ShmState) : Except ErrorCode (ShmState × Nat) :=
  createOnly (decideDeletionCreate st)

/-- The SharedMemoryCommunication constructor in the opener role
(CreationTag = SharedMemoryOpenOnly): DecideDeletion is a no-op, then the
attach. -/
def openerConstruct (st : ShmState) : Except ErrorCode (ShmState × Nat) :=
  openOnly (decideDeletionOpen st)

/-- SharedMemoryCommunication::PushMessage: a payload above the per-slot
capacity kMessageSize yields false with the queue untouched; otherwise the
message is appended to the shared queue and true is returned.  The capacity
is a parameter, since the numeric constant lives in queue_operations.h,
which is not among the sources. -/
def pushMessage (kMessageSize : Nat) (queue : List (List Nat)) (message : List Nat) :
    Bool × List (List Nat) :=
  if message.length > kMessageSize then (false, queue)
  else (true, queue ++ [message])

/-- Shifting left by one byte and or-ing in a byte below 256 is ordinary
positional arithmetic. -/
theorem shiftLeft_lor_byte (x b : Nat) (hb : b < 256) : (x <<< 8) ||| b = 256 * x + b := by
  have h1 : x <<< 8 = 2 ^ 8 * x := by rw [Nat.shiftLeft_eq]; ring
  have h2 : b < 2 ^ 8 := hb
  rw [h1, ← Nat.mul_add_lt_is_or h2 x]

/-- The ReadSize reassembly undoes the EncodeData size bytes for every size
below 2 ^ 32, in particular for sizes whose bytes have the high bit set. -/
theorem decodeSize_encodeSizeBytes (n : Nat) (h : n < 2 ^ 32) :
    decodeSizeBytes (encodeSizeBytes n) = n := by
  have hstep : decodeSizeBytes (encodeSizeBytes n) =
      decodeSize ((n >>> (8 * 3)) % 256) ((n >>> (8 * 2)) % 256)
        ((n >>> (8 * 1)) % 256) ((n >>> (8 * 0)) % 256) := rfl
  rw [hstep]
  unfold decodeSize
  rw [shiftLeft_lor_byte _ _ (Nat.mod_lt _ (by norm_num)),
      shiftLeft_lor_byte _ _ (Nat.mod_lt _ (by norm_num)),
      shiftLeft_lor_byte _ _ (Nat.mod_lt _ (by norm_num))]
  simp only [Nat.shiftRight_eq_div_pow]
  have h32 : n < 4294967296 := by norm_num at h; exact h
  omega

/-- A nonempty list is not isEmpty. -/
theorem isEmpty_false_of_length_pos {l : List Nat} (h : 0 < l.length) :
    l.isEmpty = false := by
  cases l with
  | nil => simp at h
  | cons a t => rfl

/-- C1: for every payload p with 0 < len p and len p at most MaxMessageSize,
EncodeData frames p behind the big-endian size bytes of len p, the ReadSize
byte reassembly of those bytes yields len p again and passes the
maximum-size check, and one receive step applied to the framed bytes (with
any following stream content) delivers exactly p once and leaves the rest of
the stream for the next frame, preserving order; this covers payloads whose
length bytes have the high bit set. -/
theorem tcp_frame_roundtrip (p rest : List Nat)
    (h1 : 0 < p.length) (h2 : p.length ≤ maxMessageSize) :
    encodeData p = .ok { sizeBuffer := encodeSizeBytes p.length, data := p } ∧
    decodeSizeBytes (encodeSizeBytes p.length) = p.length ∧
    decodeSizeBytes (encodeSizeBytes p.length) ≤ maxMessageSize ∧
    readFrame (frameBytes { sizeBuffer := encodeSizeBytes p.length, data := p } ++ rest) =
      some (p, rest) := by
  have hlt : p.length < 2 ^ 32 := by
    have : maxMessageSize < 2 ^ 32 := by norm_num [maxMessageSize]
    omega
  have hdec : decodeSizeBytes (encodeSizeBytes p.length) = p.length :=
    decodeSize_encodeSizeBytes p.length hlt
  have hnot : ¬(p.length > maxMessageSize) := by omega
  have henc : encodeData p = .ok { sizeBuffer := encodeSizeBytes p.length, data := p } := by
    simp [encodeData, isEmpty_false_of_length_pos h1, hnot]
  refine ⟨henc, hdec, ?_, ?_⟩
  · rw [hdec]; exact h2
  have hdec4 : decodeSize ((p.length >>> (8 * 3)) % 256) ((p.length >>> (8 * 2)) % 256)
      ((p.length >>> (8 * 1)) % 256) ((p.length >>> (8 * 0)) % 256) = p.length := hdec
  unfold frameBytes encodeSizeBytes
  simp only [List.cons_append, List.nil_append, readFrame, hdec4]
  rw [if_neg (by omega), if_neg (by simp only [List.length_append]; omega)]
  rw [show (p ++ rest).take p.length = p from List.take_left p rest,
      show (p ++ rest).drop p.length = rest from List.drop_left p rest]

/-- Witness for C1 at a payload of 200 bytes, whose low size byte 200 has the
high bit set, followed by one further byte of stream. -/
theorem tcp_frame_roundtrip_witness :
    readFrame (frameBytes (SendingMessage.mk (encodeSizeBytes (List.replicate 200 5).length)
        (List.replicate 200 5)) ++ [9]) =
      some (List.replicate 200 5, [9]) :=
  (tcp_frame_roundtrip (List.replicate 200 5) [9]
    (by rw [List.length_replicate]; norm_num)
    (by rw [List.length_replicate]; norm_num [maxMessageSize])).2.2.2

/-- C2 counterexample: a creator constructed while a region of the name
already exists (region 0 here) does not fail with an already-exists error —
the constructor removes the stale region first and then creates a fresh one,
so the construction succeeds and the prior region is gone. -/
theorem creator_existing_counterexample :
    creatorConstruct { region := some 0, nextId := 1 } =
      .ok ({ region := some 1, nextId := 2 }, 1) := rfl

/-- C2 amended: constructing a SharedMemoryCommunication in the creator role
never fails on an existing region; DecideDeletion removes any region of the
name first and the exclusive creation then binds a fresh region, so a second
creator constructed with the same name also succeeds and the surviving
region is the one the latest creator built. -/
theorem creator_deletes_then_creates (st : ShmState) :
    creatorConstruct st =
      .ok ({ region := some st.nextId, nextId := st.nextId + 1 }, st.nextId) ∧
    (decideDeletionCreate st).region = none :=
  ⟨rfl, rfl⟩

/-- C3 counterexample: a stored address whose first byte is zero defeats the
claim — ChangeAddress to a different address with a signature the capability
accepts does not overwrite the buffers, because the zero-terminated read of
the stored buffer yields the empty string and the bounded Identity
construction throws invalid_string_size, leaving the register unchanged, so
no subsequent GetAddress can return the new address. -/
theorem changeAddress_auth_counterexample :
    changeAddress (fun _ _ => true)
        (SafeAddress.mk (0 :: List.replicate 63 1) [7]) []
        (List.replicate 64 2) [3] =
      (SafeAddress.mk (0 :: List.replicate 63 1) [7],
       some ErrorCode.invalid_string_size) := by
  rfl

/-- C3 amended: provided the zero-terminated read returns the stored address
intact (the buffer has the asserted full length and contains no interior
zero byte) and the stored address differs from the new one, ChangeAddress
with a signature the writer public key rejects reports invalid_signature and
leaves both stored buffers unchanged, while with a signature that verifies
it overwrites both buffers, so that a subsequent GetAddress whose read is
likewise intact returns the new address; quantified over every verification
capability.  When the read is not intact, the bounded Identity construction
instead throws invalid_string_size before anything is modified. -/
theorem changeAddress_auth (check : List Nat → List Nat → Bool) (st : SafeAddress)
    (tailMem newAddress newSignature : List Nat)
    (hlen : st.address.length = addressSize)
    (hread : cStringRead st.address tailMem = st.address)
    (hnewlen : newAddress.length = addressSize)
    (hne : st.address ≠ newAddress) :
    (check newAddress newSignature = false →
      changeAddress check st tailMem newAddress newSignature =
        (st, some .invalid_signature)) ∧
    (check newAddress newSignature = true →
      changeAddress check st tailMem newAddress newSignature =
        (SafeAddress.mk newAddress newSignature, none) ∧
      ∀ tm2, cStringRead newAddress tm2 = newAddress →
        getAddress (SafeAddress.mk newAddress newSignature) tm2 = .ok newAddress) := by
  have hid : mkIdentity (cStringRead st.address tailMem) = .ok st.address := by
    rw [hread]
    unfold mkIdentity
    rw [if_pos hlen]
  constructor <;> intro h
  · simp only [changeAddress, hid, if_neg hne, h, Bool.false_eq_true, if_false]
  · refine ⟨?_, ?_⟩
    · simp only [changeAddress, hid, if_neg hne, h, if_true]
    · intro tm2 hr2
      unfold getAddress mkIdentity
      rw [hr2, if_pos hnewlen]

/-- Witness for C3 at a zero-free 64-byte stored address with zero-starting
adjacent memory: a rejecting capability leaves the register untouched and
reports the authentication error, an accepting one installs the new pair,
after which GetAddress returns the new address. -/
theorem changeAddress_auth_witness :
    changeAddress (fun _ _ => false) (SafeAddress.mk (List.replicate 64 1) [7]) [0]
        (List.replicate 64 2) [3] =
      (SafeAddress.mk (List.replicate 64 1) [7], some ErrorCode.invalid_signature) ∧
    changeAddress (fun _ _ => true) (SafeAddress.mk (List.replicate 64 1) [7]) [0]
        (List.replicate 64 2) [3] =
      (SafeAddress.mk (List.replicate 64 2) [3], none) ∧
    getAddress (SafeAddress.mk (List.replicate 64 2) [3]) [0] = .ok (List.replicate 64 2) :=
  ⟨(changeAddress_auth (fun _ _ => false) (SafeAddress.mk (List.replicate 64 1) [7]) [0]
      (List.replicate 64 2) [3] (by decide) (by decide) (by decide) (by decide)).1 rfl,
   ((changeAddress_auth (fun _ _ => true) (SafeAddress.mk (List.replicate 64 1) [7]) [0]
      (List.replicate 64 2) [3] (by decide) (by decide) (by decide) (by decide)).2 rfl).1,
   ((changeAddress_auth (fun _ _ => true) (SafeAddress.mk (List.replicate 64 1) [7]) [0]
      (List.replicate 64 2) [3] (by decide) (by decide) (by decide) (by decide)).2 rfl).2
     [0] (by decide)⟩

/-- C4: when the reassembled length of the four received size bytes exceeds
MaxMessageSize, the ReadSize completion handler discards the partially built
inbound frame, closes the connection through DoClose, and never starts a
body read of that many bytes. -/
theorem readSize_oversized_closes (s : ConnState) (b0 b1 b2 b3 : Nat)
    (h : maxMessageSize < decodeSize b0 b1 b2 b3) :
    readSizeHandler s false b0 b1 b2 b3 =
      (doClose { s with dataBuffer := [] }, .close) ∧
    (readSizeHandler s false b0 b1 b2 b3).1.dataBuffer = [] ∧
    ∀ n, (readSizeHandler s false b0 b1 b2 b3).2 ≠ ReadAction.readBody n := by
  have hbuf : ∀ t : ConnState, (doClose t).dataBuffer = t.dataBuffer := by
    intro t
    unfold doClose
    split <;> rfl
  have heq : readSizeHandler s false b0 b1 b2 b3 =
      (doClose { s with dataBuffer := [] }, .close) := by
    unfold readSizeHandler
    rw [if_neg (by simp), if_pos h]
  refine ⟨heq, ?_, ?_⟩
  · rw [heq]
    exact hbuf { s with dataBuffer := [] }
  · intro n
    rw [heq]
    simp

/-- Witness for C4 at the all-ones size bytes, whose reassembled length
4294967295 exceeds the maximum. -/
theorem readSize_oversized_closes_witness :
    readSizeHandler initConnState false 255 255 255 255 =
      (doClose { initConnState with dataBuffer := [] }, .close) :=
  (readSize_oversized_closes initConnState 255 255 255 255 (by decide)).1

/-- C5: Send with an empty payload fails with invalid_string_size, Send with a
payload above MaxMessageSize fails with ipc_message_too_large, and in both
cases the failure is raised by EncodeData before anything is posted, so the
send queue is unchanged and nothing reaches the wire. -/
theorem send_rejects_invalid (s : ConnState) (p : List Nat) :
    (p.length = 0 → send s p = (s, some .invalid_string_size)) ∧
    (maxMessageSize < p.length → send s p = (s, some .ipc_message_too_large)) := by
  constructor <;> intro h
  · have hnil : p = [] := List.length_eq_zero.mp h
    subst hnil
    rfl
  · have hne : p.isEmpty = false := isEmpty_false_of_length_pos (by omega)
    unfold send encodeData
    rw [hne]
    simp only [Bool.false_eq_true, if_false, if_pos h]

/-- Witness for C5: the empty payload and a payload one byte above the
maximum are both rejected with the respective error, with the queue of the
fresh connection unchanged. -/
theorem send_rejects_invalid_witness :
    send initConnState [] = (initConnState, some ErrorCode.invalid_string_size) ∧
    send initConnState (List.replicate (maxMessageSize + 1) 0) =
      (initConnState, some ErrorCode.ipc_message_too_large) :=
  ⟨(send_rejects_invalid initConnState []).1 rfl,
   (send_rejects_invalid initConnState (List.replicate (maxMessageSize + 1) 0)).2
     (by rw [List.length_replicate]; omega)⟩

/-- DoClose is a no-op once socket_close_flag_ is used. -/
theorem doClose_of_used (s : ConnState) (h : s.closeFlagUsed = true) : doClose s = s := by
  unfold doClose
  rw [if_pos h]

/-- Iterating DoClose on a state whose close flag is used changes nothing. -/
theorem iterate_doClose_fixed (m : Nat) (t : ConnState) (h : t.closeFlagUsed = true) :
    doClose^[m] t = t := by
  induction m with
  | zero => rfl
  | succ k ih =>
      rw [Function.iterate_succ_apply, doClose_of_used t h]
      exact ih

/-- C6: however many times the close path of a started connection is
triggered — an explicit Close, a read failure, a write failure, or any
combination, all of which run DoClose — the shutdown sequence runs and the
connection-closed callback fires exactly once, never twice. -/
theorem doClose_exactly_once (s : ConnState) (n : Nat)
    (hflag : s.closeFlagUsed = false) (hcb : s.hasOnConnectionClosed = true)
    (hn : 0 < n) :
    (doClose^[n] s).closedCallbackCount = s.closedCallbackCount + 1 ∧
    (doClose^[n] s).socketOpen = false ∧
    (doClose^[n] s).sendShutdown = true := by
  obtain ⟨m, rfl⟩ : ∃ m, n = m + 1 := ⟨n - 1, by omega⟩
  rw [Function.iterate_succ_apply]
  have h1 : doClose s =
      { s with closeFlagUsed := true, sendShutdown := true, socketOpen := false,
               closedCallbackCount := s.closedCallbackCount + 1 } := by
    unfold doClose
    rw [if_neg (by rw [hflag]; simp), hcb]
    rfl
  rw [h1, iterate_doClose_fixed m _ rfl]
  exact ⟨rfl, rfl, rfl⟩

/-- Witness for C6: three close triggers on a freshly started connection
still yield a single callback invocation together with the shutdown. -/
theorem doClose_exactly_once_witness :
    (doClose^[3] (start initConnState)).closedCallbackCount =
      (start initConnState).closedCallbackCount + 1 ∧
    (doClose^[3] (start initConnState)).socketOpen = false ∧
    (doClose^[3] (start initConnState)).sendShutdown = true :=
  doClose_exactly_once (start initConnState) 3 (by decide) (by decide) (by decide)

/-- C7: PushMessage with a payload above the per-slot capacity returns false
with the shared queue unchanged (no exception is modelled: the function is
total), and with a payload within the capacity it enqueues the message,
for every capacity value, queue content and message. -/
theorem pushMessage_capacity (kMessageSize : Nat) (q : List (List Nat)) (m : List Nat) :
    (kMessageSize < m.length → pushMessage kMessageSize q m = (false, q)) ∧
    (m.length ≤ kMessageSize → pushMessage kMessageSize q m = (true, q ++ [m])) := by
  constructor <;> intro h
  · unfold pushMessage
    rw [if_pos h]
  · unfold pushMessage
    rw [if_neg (by omega)]

/-- Witness for C7: with capacity two, a three-byte message is rejected with
the queue untouched and a two-byte message is appended. -/
theorem pushMessage_capacity_witness :
    pushMessage 2 [[1]] [1, 2, 3] = (false, [[1]]) ∧
    pushMessage 2 [[1]] [4, 5] = (true, [[1], [4, 5]]) :=
  ⟨(pushMessage_capacity 2 [[1]] [1, 2, 3]).1 (by decide),
   (pushMessage_capacity 2 [[1]] [4, 5]).2 (by decide)⟩

/-- C8: both TcpConnection constructors fail with invalid_parameter exactly
when the executor reports a thread count different from one; with exactly one
thread this check never fails (the dialing constructor may still fail later,
but only with failed_to_connect). -/
theorem ctor_thread_check (threadCount : Nat) (connectSucceeds : Bool) :
    (tcpConnectionCtor threadCount = .error .invalid_parameter ↔ threadCount ≠ 1) ∧
    (tcpConnectionDialCtor threadCount connectSucceeds = .error .invalid_parameter ↔
      threadCount ≠ 1) := by
  by_cases h : threadCount = 1
  · subst h
    simp only [tcpConnectionCtor, tcpConnectionDialCtor]
    cases connectSucceeds <;> simp
  · simp [tcpConnectionCtor, tcpConnectionDialCtor, h]

/-- C9 counterexample: a stored address whose first byte is zero defeats the
claim — with the new address equal to the stored bytes, ChangeAddress does
not return successfully: the zero-terminated read truncates to the empty
string and the bounded Identity construction throws invalid_string_size
before any comparison or signature check could run. -/
theorem changeAddress_same_counterexample :
    changeAddress (fun _ _ => false)
        (SafeAddress.mk (0 :: List.replicate 63 5) [7]) []
        (0 :: List.replicate 63 5) [9] =
      (SafeAddress.mk (0 :: List.replicate 63 5) [7],
       some ErrorCode.invalid_string_size) := by
  rfl

/-- C9 amended: provided the zero-terminated read returns the stored address
intact (full length, no interior zero byte), ChangeAddress with the new
address equal to the currently stored one returns successfully at once,
before any signature verification, for every verification capability and
every signature value, leaving both stored buffers unchanged and reporting
no error; with a read that is not intact it instead throws
invalid_string_size before any comparison or signature check. -/
theorem changeAddress_same_address (check : List Nat → List Nat → Bool)
    (st : SafeAddress) (tailMem sg : List Nat)
    (hlen : st.address.length = addressSize)
    (hread : cStringRead st.address tailMem = st.address) :
    changeAddress check st tailMem st.address sg = (st, none) := by
  have hid : mkIdentity (cStringRead st.address tailMem) = .ok st.address := by
    rw [hread]
    unfold mkIdentity
    rw [if_pos hlen]
  simp only [changeAddress, hid, if_pos rfl, eq_self_iff_true, if_true]

/-- Witness for C9 at a zero-free 64-byte stored address with zero-starting
adjacent memory and an always-rejecting capability: the call succeeds with
the register unchanged, so the capability was never consulted. -/
theorem changeAddress_same_address_witness :
    changeAddress (fun _ _ => false) (SafeAddress.mk (List.replicate 64 3) [7]) [0]
        (List.replicate 64 3) [9] =
      (SafeAddress.mk (List.replicate 64 3) [7], none) :=
  changeAddress_same_address (fun _ _ => false)
    (SafeAddress.mk (List.replicate 64 3) [7]) [0] [9] (by decide) (by decide)

/-- C10: running DoClose on a connection whose Start was never called (the
constructor state, so no callbacks are registered) still shuts down the send
half and closes the socket, but the null connection-closed callback is
guarded and never invoked. -/
theorem doClose_without_start :
    initConnState.startCalled = false ∧
    initConnState.hasOnConnectionClosed = false ∧
    (doClose initConnState).closedCallbackCount = 0 ∧
    (doClose initConnState).socketOpen = false ∧
    (doClose initConnState).sendShutdown = true := by
  decide
